import Mathlib

/-!
# Verification of the guarded arithmetic unit (`src/calculator.py`)

Shallow embedding of the core of `calculator.py`: the `Calculator` class,
the `_finite_or_none` finiteness chokepoint, the `math.isclose` near-zero
test used by `divide`, and the overflow pre-checks of `multiply` and
`divide`.

## Float model

Python floats (IEEE-754 binary64) are modelled by the inductive type `Fl`:
`nan`, signed infinity `inf b` (`b = true` means negative), or a finite
value `finite q` carrying an exact rational.  Arithmetic on finite values
is exact rational arithmetic, except that any result whose magnitude
exceeds `float_info.max` overflows to a signed infinity (`Fl.ofRat`).
This idealisation keeps the double-precision overflow threshold and the
NaN/infinity propagation rules, while dropping bit-level rounding of
in-range results; none of the control-flow properties proved below depend
on rounding of in-range values.  A double value written in source as a
decimal literal (`1e-12`, `1e-308`) is modelled by the exact decimal
rational it denotes.  Finite doubles all satisfy `|q| ≤ float_info.max`;
theorems that need this representability bound take it as a hypothesis.
-/

/-- `sys.float_info.max`, the largest finite binary64 value:
`(2^53 - 1) * 2^971 = 2^1024 - 2^971`. -/
def float_info_max : ℚ := 2 ^ 1024 - 2 ^ 971

/-- `NEAR_ZERO_TOL = 1e-12`, the default near-zero tolerance of `divide`. -/
def NEAR_ZERO_TOL : ℚ := 1 / 10 ^ 12

/-- The default `rel_tol = 1e-09` of `math.isclose`; `divide` passes only
`abs_tol`, so the relative tolerance keeps this default. -/
def relTolDefault : ℚ := 1 / 10 ^ 9

/-- Model of a Python float: NaN, a signed infinity (`true` = negative),
or a finite value carried as an exact rational. -/
inductive Fl where
  | nan : Fl
  | inf : Bool → Fl
  | finite : ℚ → Fl
deriving DecidableEq, Repr

/-- `math.isfinite`. -/
def Fl.isfinite : Fl → Bool
  | .finite _ => true
  | _ => false

/-- Python float equality `==`: NaN compares unequal to everything,
including itself. -/
def Fl.pyEq : Fl → Fl → Bool
  | .nan, _ => false
  | _, .nan => false
  | .inf s, .inf t => s == t
  | .inf _, .finite _ => false
  | .finite _, .inf _ => false
  | .finite a, .finite b => a == b

/-- Python float comparison `>`: any comparison involving NaN is false. -/
def Fl.pyGt : Fl → Fl → Bool
  | .nan, _ => false
  | _, .nan => false
  | .inf s, .inf t => !s && t
  | .inf s, .finite _ => !s
  | .finite _, .inf t => t
  | .finite a, .finite b => decide (b < a)

/-- Python `abs` on floats. -/
def Fl.abs : Fl → Fl
  | .nan => .nan
  | .inf _ => .inf false
  | .finite a => .finite |a|

/-- Python unary minus on floats. -/
def Fl.neg : Fl → Fl
  | .nan => .nan
  | .inf s => .inf (!s)
  | .finite a => .finite (-a)

/-- Rounding an exact rational result into the float model: magnitudes
beyond `float_info.max` overflow to a signed infinity, everything else is
kept exactly (idealised in-range rounding). -/
def Fl.ofRat (q : ℚ) : Fl :=
  if float_info_max < q then .inf false
  else if q < -float_info_max then .inf true
  else .finite q

/-- Python float addition `+` on the model. -/
def Fl.add : Fl → Fl → Fl
  | .nan, _ => .nan
  | _, .nan => .nan
  | .inf s, .inf t => if s == t then .inf s else .nan
  | .inf s, .finite _ => .inf s
  | .finite _, .inf t => .inf t
  | .finite a, .finite b => Fl.ofRat (a + b)

/-- Python float subtraction `-` on the model. -/
def Fl.sub (a b : Fl) : Fl := Fl.add a (Fl.neg b)

/-- Python float multiplication `*` on the model. -/
def Fl.mul : Fl → Fl → Fl
  | .nan, _ => .nan
  | _, .nan => .nan
  | .inf s, .inf t => .inf (s != t)
  | .inf s, .finite b => if b = 0 then .nan else .inf (s != decide (b < 0))
  | .finite a, .inf t => if a = 0 then .nan else .inf (decide (a < 0) != t)
  | .finite a, .finite b => Fl.ofRat (a * b)

/-- Python float true division `/` on the model.  Division of a finite
float by exact `0.0` raises `ZeroDivisionError` in Python; that branch is
unreachable from `Calculator.divide` (the near-zero guard, or the
tolerance validation of `isclose`, rejects a zero divisor first), so the
model returns `nan` there as an inert placeholder. -/
def Fl.div : Fl → Fl → Fl
  | .nan, _ => .nan
  | _, .nan => .nan
  | .inf _, .inf _ => .nan
  | .inf s, .finite b => .inf (s != decide (b < 0))
  | .finite _, .inf _ => .finite 0
  | .finite a, .finite b => if b = 0 then .nan else Fl.ofRat (a / b)

/-- `math.isclose(a, b, rel_tol, abs_tol)` (CPython semantics): negative
tolerances raise `ValueError` (the `Except.error` case); `a == b` is close;
an infinite operand that is not equal to the other is not close; otherwise
`|b - a| ≤ max(rel_tol*|b|, rel_tol*|a|, abs_tol)`.  A NaN operand falls
through to the comparison, where every NaN comparison is false.  The
finite-operand arithmetic is exact here (idealised rounding). -/
def isclose (a b : Fl) (rel_tol abs_tol : ℚ) : Except String Bool :=
  if rel_tol < 0 ∨ abs_tol < 0 then
    Except.error "tolerances must be non-negative"
  else if Fl.pyEq a b then Except.ok true
  else
    match a, b with
    | .finite qa, .finite qb =>
        Except.ok (decide (|qb - qa| ≤ |rel_tol * qb| ∨ |qb - qa| ≤ |rel_tol * qa| ∨
          |qb - qa| ≤ abs_tol))
    | _, _ => Except.ok false

/-- Outcome of one guarded operation: either a (finite) float value, or
the invalid signal carrying the diagnostic text of the warning the source
emits alongside its `None` return. -/
inductive CalcResult where
  | value : Fl → CalcResult
  | invalid : String → CalcResult
deriving DecidableEq, Repr

/-- `_finite_or_none(value, op_name)`: return the value only if it is
finite; otherwise the invalid signal with the non-finite diagnostic. -/
def _finite_or_none (value : Fl) (op_name : String) : CalcResult :=
  if value.isfinite then .value value
  else .invalid (op_name ++ " produced a non-finite result (inf/NaN).")

/-- The `Calculator` class: two stored operands. -/
structure Calculator where
  op1 : Fl
  op2 : Fl
deriving DecidableEq, Repr

/-- `Calculator.add`: `_finite_or_none(op1 + op2, "addition")`.  Methods
are embedded state-passing style, returning the result together with the
post-call object state, to make mutation (or its absence) explicit. -/
def Calculator.add (c : Calculator) : CalcResult × Calculator :=
  (_finite_or_none (Fl.add c.op1 c.op2) "addition", c)

/-- `Calculator.subtract`: `_finite_or_none(op1 - op2, "subtraction")`. -/
def Calculator.subtract (c : Calculator) : CalcResult × Calculator :=
  (_finite_or_none (Fl.sub c.op1 c.op2) "subtraction", c)

/-- `Calculator.multiply`: pre-check `|x| > float_info.max / |y|` for
finite operands with nonzero `y` (all in float arithmetic), signalling
overflow before the product; otherwise `_finite_or_none(x * y, ...)`. -/
def Calculator.multiply (c : Calculator) : CalcResult × Calculator :=
  let x := c.op1
  let y := c.op2
  if x.isfinite && y.isfinite then
    let ay := Fl.abs y
    if !(Fl.pyEq ay (.finite 0)) &&
        Fl.pyGt (Fl.abs x) (Fl.div (.finite float_info_max) ay) then
      (.invalid "multiplication would overflow (|x|*|y| > max_float).", c)
    else
      (_finite_or_none (Fl.mul x y) "multiplication", c)
  else
    (_finite_or_none (Fl.mul x y) "multiplication", c)

/-- `Calculator.divide(tol)`: reject a non-finite divisor or one within
`tol` of zero (`isclose(y, 0.0, abs_tol=tol)`, short-circuited after the
finiteness test exactly as Python's `or` does); then the overflow
pre-check `|x| > float_info.max * |y|` for finite dividends; then
`_finite_or_none(x / y, "division")`.  The `Except` layer carries the
`ValueError` that `isclose` raises on a negative tolerance. -/
def Calculator.divide (c : Calculator) (tol : ℚ) :
    Except String CalcResult × Calculator :=
  let x := c.op1
  let y := c.op2
  if !y.isfinite then
    (Except.ok (.invalid "attempt to divide by (near) zero."), c)
  else
    match isclose y (.finite 0) relTolDefault tol with
    | Except.error e => (Except.error e, c)
    | Except.ok true =>
        (Except.ok (.invalid "attempt to divide by (near) zero."), c)
    | Except.ok false =>
        if x.isfinite &&
            Fl.pyGt (Fl.abs x) (Fl.mul (.finite float_info_max) (Fl.abs y)) then
          (Except.ok (.invalid "division would overflow (|x|/|y| > max_float)."), c)
        else
          (Except.ok (_finite_or_none (Fl.div x y) "division"), c)

/-! ## Basic facts about the constants and the float model -/

lemma float_info_max_pos : 0 < float_info_max := by norm_num [float_info_max]

lemma relTolDefault_nonneg : 0 ≤ relTolDefault := by norm_num [relTolDefault]

lemma relTolDefault_lt_one : relTolDefault < 1 := by norm_num [relTolDefault]

lemma NEAR_ZERO_TOL_pos : 0 < NEAR_ZERO_TOL := by norm_num [NEAR_ZERO_TOL]

lemma ofRat_finite (q : ℚ) (h : |q| ≤ float_info_max) : Fl.ofRat q = .finite q := by
  unfold Fl.ofRat
  rw [abs_le] at h
  rw [if_neg (not_lt.mpr h.2), if_neg (not_lt.mpr h.1)]

lemma ofRat_isfinite_false (q : ℚ) (h : float_info_max < |q|) :
    (Fl.ofRat q).isfinite = false := by
  unfold Fl.ofRat
  rcases lt_abs.mp h with h1 | h1
  · rw [if_pos h1]; rfl
  · have h2 : q < -float_info_max := by linarith
    rw [if_neg (by linarith [float_info_max_pos]), if_pos h2]; rfl

lemma finite_or_none_of_finite (q : ℚ) (s : String) :
    _finite_or_none (.finite q) s = .value (.finite q) := by
  unfold _finite_or_none
  rfl

lemma finite_or_none_of_not_finite (w : Fl) (s : String) (h : w.isfinite = false) :
    _finite_or_none w s = .invalid (s ++ " produced a non-finite result (inf/NaN).") := by
  unfold _finite_or_none
  rw [h]
  rfl

lemma finite_or_none_value_isfinite (w : Fl) (s : String) (v : Fl)
    (h : _finite_or_none w s = .value v) : v.isfinite = true := by
  unfold _finite_or_none at h
  split at h
  · next hf =>
      injection h with h2
      rw [← h2]
      exact hf
  · exact CalcResult.noConfusion h

/-! ## Projection lemmas for the state-passing methods -/

lemma add_fst (c : Calculator) :
    (c.add).1 = _finite_or_none (Fl.add c.op1 c.op2) "addition" := rfl

lemma subtract_fst (c : Calculator) :
    (c.subtract).1 = _finite_or_none (Fl.sub c.op1 c.op2) "subtraction" := rfl

lemma multiply_fst (c : Calculator) :
    (c.multiply).1 =
      if c.op1.isfinite && c.op2.isfinite then
        if !(Fl.pyEq (Fl.abs c.op2) (.finite 0)) &&
            Fl.pyGt (Fl.abs c.op1) (Fl.div (.finite float_info_max) (Fl.abs c.op2)) then
          .invalid "multiplication would overflow (|x|*|y| > max_float)."
        else
          _finite_or_none (Fl.mul c.op1 c.op2) "multiplication"
      else
        _finite_or_none (Fl.mul c.op1 c.op2) "multiplication" := by
  unfold Calculator.multiply
  dsimp only
  split
  · split
    · rfl
    · rfl
  · rfl

lemma divide_fst (c : Calculator) (tol : ℚ) :
    (c.divide tol).1 =
      if !c.op2.isfinite then
        Except.ok (.invalid "attempt to divide by (near) zero.")
      else
        match isclose c.op2 (.finite 0) relTolDefault tol with
        | Except.error e => Except.error e
        | Except.ok true =>
            Except.ok (.invalid "attempt to divide by (near) zero.")
        | Except.ok false =>
            if c.op1.isfinite &&
                Fl.pyGt (Fl.abs c.op1) (Fl.mul (.finite float_info_max) (Fl.abs c.op2)) then
              Except.ok (.invalid "division would overflow (|x|/|y| > max_float).")
            else
              Except.ok (_finite_or_none (Fl.div c.op1 c.op2) "division") := by
  unfold Calculator.divide
  dsimp only
  split
  · rfl
  · split
    · rfl
    · rfl
    · split
      · rfl
      · rfl

/-! ## Reduction of the `isclose` near-zero test used by `divide` -/

lemma isclose_neg_tol (a b : Fl) (rel tol : ℚ) (h : tol < 0) :
    isclose a b rel tol = Except.error "tolerances must be non-negative" := by
  unfold isclose
  rw [if_pos (Or.inr h)]

lemma isclose_finite_zero (qy tol : ℚ) (htol : 0 ≤ tol) :
    isclose (.finite qy) (.finite 0) relTolDefault tol
      = Except.ok (decide (|qy| ≤ tol)) := by
  unfold isclose
  rw [if_neg (by push_neg; exact ⟨relTolDefault_nonneg, htol⟩)]
  by_cases h0 : qy = 0
  · subst h0
    have hpy : Fl.pyEq (.finite 0) (.finite (0 : ℚ)) = true := by
      simp [Fl.pyEq]
    rw [if_pos hpy]
    have hd : decide (|(0 : ℚ)| ≤ tol) = true := decide_eq_true (by simpa using htol)
    rw [hd]
  · have hpy : Fl.pyEq (.finite qy) (.finite (0 : ℚ)) = false := by
      simp [Fl.pyEq, h0]
    rw [if_neg (by simp [hpy])]
    dsimp only
    congr 1
    rw [decide_eq_decide]
    have habs : |(0 : ℚ) - qy| = |qy| := by rw [zero_sub, abs_neg]
    have hq0 : 0 < |qy| := abs_pos.mpr h0
    constructor
    · rintro (h | h | h)
      · rw [habs, mul_zero, abs_zero] at h
        exact absurd (abs_nonneg qy) (by push_neg; exact lt_of_le_of_ne h (abs_ne_zero.mpr h0))
      · rw [habs, abs_mul] at h
        have hrel : |relTolDefault| < 1 := by
          rw [abs_of_nonneg relTolDefault_nonneg]; exact relTolDefault_lt_one
        nlinarith
      · rw [habs] at h; exact h
    · intro h
      right; right
      rw [habs]; exact h

/-! ## Evaluation lemmas for the four operations on finite operands -/

lemma add_value (qx qy : ℚ) (h : |qx + qy| ≤ float_info_max) :
    (Calculator.add ⟨.finite qx, .finite qy⟩).1 = .value (.finite (qx + qy)) := by
  rw [add_fst]
  show _finite_or_none (Fl.ofRat (qx + qy)) "addition" = _
  rw [ofRat_finite _ h, finite_or_none_of_finite]

lemma add_overflow (qx qy : ℚ) (h : float_info_max < |qx + qy|) :
    (Calculator.add ⟨.finite qx, .finite qy⟩).1
      = .invalid "addition produced a non-finite result (inf/NaN)." := by
  rw [add_fst]
  show _finite_or_none (Fl.ofRat (qx + qy)) "addition" = _
  rw [finite_or_none_of_not_finite _ _ (ofRat_isfinite_false _ h)]
  rfl

lemma sub_value (qx qy : ℚ) (h : |qx - qy| ≤ float_info_max) :
    (Calculator.subtract ⟨.finite qx, .finite qy⟩).1 = .value (.finite (qx - qy)) := by
  rw [subtract_fst]
  show _finite_or_none (Fl.ofRat (qx + -qy)) "subtraction" = _
  rw [← sub_eq_add_neg]
  rw [ofRat_finite _ h, finite_or_none_of_finite]

lemma sub_overflow (qx qy : ℚ) (h : float_info_max < |qx - qy|) :
    (Calculator.subtract ⟨.finite qx, .finite qy⟩).1
      = .invalid "subtraction produced a non-finite result (inf/NaN)." := by
  rw [subtract_fst]
  show _finite_or_none (Fl.ofRat (qx + -qy)) "subtraction" = _
  rw [← sub_eq_add_neg]
  rw [finite_or_none_of_not_finite _ _ (ofRat_isfinite_false _ h)]
  rfl

lemma div_max_abs_small (qy : ℚ) (h0 : qy ≠ 0) (h1 : 1 ≤ |qy|) :
    Fl.div (.finite float_info_max) (.finite |qy|) = .finite (float_info_max / |qy|) := by
  show (if |qy| = 0 then Fl.nan else Fl.ofRat (float_info_max / |qy|)) = _
  rw [if_neg (abs_ne_zero.mpr h0)]
  apply ofRat_finite
  have hpos : 0 < |qy| := abs_pos.mpr h0
  have hnn : 0 ≤ float_info_max / |qy| := le_of_lt (div_pos float_info_max_pos hpos)
  rw [abs_of_nonneg hnn]
  exact div_le_self (le_of_lt float_info_max_pos) h1

lemma div_max_abs_big (qy : ℚ) (h0 : qy ≠ 0) (h1 : |qy| < 1) :
    Fl.div (.finite float_info_max) (.finite |qy|) = .inf false := by
  show (if |qy| = 0 then Fl.nan else Fl.ofRat (float_info_max / |qy|)) = _
  rw [if_neg (abs_ne_zero.mpr h0)]
  unfold Fl.ofRat
  rw [if_pos]
  have hpos : 0 < |qy| := abs_pos.mpr h0
  rw [lt_div_iff hpos]
  nlinarith [float_info_max_pos]

lemma mul_max_abs_small (qy : ℚ) (h : |qy| ≤ 1) :
    Fl.mul (.finite float_info_max) (.finite |qy|) = .finite (float_info_max * |qy|) := by
  show Fl.ofRat (float_info_max * |qy|) = _
  apply ofRat_finite
  have hnn : 0 ≤ float_info_max * |qy| :=
    mul_nonneg (le_of_lt float_info_max_pos) (abs_nonneg qy)
  rw [abs_of_nonneg hnn]
  nlinarith [float_info_max_pos, abs_nonneg qy]

lemma mul_max_abs_big (qy : ℚ) (h : 1 < |qy|) :
    Fl.mul (.finite float_info_max) (.finite |qy|) = .inf false := by
  show Fl.ofRat (float_info_max * |qy|) = _
  unfold Fl.ofRat
  rw [if_pos]
  nlinarith [float_info_max_pos]

lemma multiply_value (qx qy : ℚ) (h : |qx| * |qy| ≤ float_info_max) :
    (Calculator.multiply ⟨.finite qx, .finite qy⟩).1 = .value (.finite (qx * qy)) := by
  rw [multiply_fst]
  have hfin : ((Fl.finite qx).isfinite && (Fl.finite qy).isfinite) = true := rfl
  rw [if_pos hfin]
  have hcond : (!(Fl.finite qy).abs.pyEq (Fl.finite 0) &&
      (Fl.finite qx).abs.pyGt ((Fl.finite float_info_max).div (Fl.finite qy).abs)) = false := by
    by_cases h0 : qy = 0
    · subst h0
      simp [Fl.abs, Fl.pyEq]
    · have hpos : 0 < |qy| := abs_pos.mpr h0
      have hgt : (Fl.finite qx).abs.pyGt ((Fl.finite float_info_max).div (Fl.finite qy).abs)
          = false := by
        show Fl.pyGt (.finite |qx|) (Fl.div (.finite float_info_max) (.finite |qy|)) = false
        rcases lt_or_le (|qy|) 1 with h1 | h1
        · rw [div_max_abs_big qy h0 h1]
          rfl
        · rw [div_max_abs_small qy h0 h1]
          show decide (float_info_max / |qy| < |qx|) = false
          rw [decide_eq_false]
          rw [not_lt, le_div_iff hpos]
          exact h
      rw [hgt, Bool.and_false]
  rw [if_neg (by rw [hcond]; exact Bool.false_ne_true)]
  show _finite_or_none (Fl.ofRat (qx * qy)) "multiplication" = _
  rw [ofRat_finite _ (by rw [abs_mul]; exact h), finite_or_none_of_finite]

lemma divide_far_fst (x : Fl) (qy tol : ℚ) (htol : 0 ≤ tol) (hfar : tol < |qy|) :
    (Calculator.divide ⟨x, .finite qy⟩ tol).1 =
      if x.isfinite &&
          Fl.pyGt (Fl.abs x) (Fl.mul (.finite float_info_max) (.finite |qy|)) then
        Except.ok (.invalid "division would overflow (|x|/|y| > max_float).")
      else
        Except.ok (_finite_or_none (Fl.div x (.finite qy)) "division") := by
  rw [divide_fst]
  dsimp only
  rw [if_neg (by simp [Fl.isfinite])]
  rw [isclose_finite_zero qy tol htol]
  rw [decide_eq_false (not_le.mpr hfar)]
  rfl

lemma divide_value (qx qy tol : ℚ) (htol : 0 ≤ tol) (hfar : tol < |qy|)
    (hq : |qx / qy| ≤ float_info_max) :
    (Calculator.divide ⟨.finite qx, .finite qy⟩ tol).1
      = Except.ok (.value (.finite (qx / qy))) := by
  have h0 : qy ≠ 0 := by
    intro h
    rw [h] at hfar
    simp at hfar
    exact absurd (lt_of_le_of_lt htol hfar) (lt_irrefl 0)
  have hpos : 0 < |qy| := abs_pos.mpr h0
  rw [divide_far_fst _ qy tol htol hfar]
  have hgt : Fl.pyGt (Fl.abs (.finite qx)) (Fl.mul (.finite float_info_max) (.finite |qy|))
      = false := by
    show Fl.pyGt (.finite |qx|) (Fl.mul (.finite float_info_max) (.finite |qy|)) = false
    rcases le_or_lt (|qy|) 1 with h1 | h1
    · rw [mul_max_abs_small qy h1]
      show decide (float_info_max * |qy| < |qx|) = false
      rw [decide_eq_false]
      rw [not_lt]
      have hq2 : |qx| / |qy| ≤ float_info_max := by rw [← abs_div]; exact hq
      exact (div_le_iff hpos).mp hq2
    · rw [mul_max_abs_big qy h1]
      rfl
  rw [hgt]
  simp only [Bool.and_false, Bool.false_eq_true, if_false]
  have hdiv : Fl.div (.finite qx) (.finite qy) = .finite (qx / qy) := by
    show (if qy = 0 then Fl.nan else Fl.ofRat (qx / qy)) = _
    rw [if_neg h0, ofRat_finite _ hq]
  rw [hdiv, finite_or_none_of_finite]

/-! ## State-preservation lemmas (second projection of each method) -/

lemma add_snd (c : Calculator) : (c.add).2 = c := rfl

lemma subtract_snd (c : Calculator) : (c.subtract).2 = c := rfl

lemma multiply_snd (c : Calculator) : (c.multiply).2 = c := by
  unfold Calculator.multiply
  dsimp only
  split
  · split
    · rfl
    · rfl
  · rfl

lemma divide_snd (c : Calculator) (tol : ℚ) : (c.divide tol).2 = c := by
  unfold Calculator.divide
  dsimp only
  split
  · rfl
  · split
    · rfl
    · rfl
    · split
      · rfl
      · rfl

/-! ## Claims -/

/-- Claim C1: for every operation (add, subtract, multiply, divide) and all
float operands, including NaN and infinities, any successful value the
operation returns is finite — every success passes through the
`_finite_or_none` chokepoint, which filters out non-finite values. -/
theorem claim_c1_success_value_is_finite (c : Calculator) (tol : ℚ) (v : Fl) :
    ((c.add).1 = .value v → v.isfinite = true) ∧
    ((c.subtract).1 = .value v → v.isfinite = true) ∧
    ((c.multiply).1 = .value v → v.isfinite = true) ∧
    ((c.divide tol).1 = Except.ok (.value v) → v.isfinite = true) := by
  refine ⟨?_, ?_, ?_, ?_⟩
  · intro h
    rw [add_fst] at h
    exact finite_or_none_value_isfinite _ _ _ h
  · intro h
    rw [subtract_fst] at h
    exact finite_or_none_value_isfinite _ _ _ h
  · intro h
    rw [multiply_fst] at h
    split at h
    · split at h
      · exact CalcResult.noConfusion h
      · exact finite_or_none_value_isfinite _ _ _ h
    · exact finite_or_none_value_isfinite _ _ _ h
  · intro h
    rw [divide_fst] at h
    split at h
    · simp at h
    · split at h
      · exact Except.noConfusion h
      · simp at h
      · split at h
        · simp at h
        · simp only [Except.ok.injEq] at h
          exact finite_or_none_value_isfinite _ _ _ h

/-- Claim C1 witness: at the concrete operand pairs (10, 2) for add,
subtract, divide and (6, 7) for multiply, each equality hypothesis is
discharged and the returned value is indeed finite. -/
theorem claim_c1_witness :
    (Fl.finite ((10 : ℚ) + 2)).isfinite = true ∧
    (Fl.finite ((10 : ℚ) - 2)).isfinite = true ∧
    (Fl.finite ((6 : ℚ) * 7)).isfinite = true ∧
    (Fl.finite ((10 : ℚ) / 2)).isfinite = true := by
  refine ⟨?_, ?_, ?_, ?_⟩
  · exact (claim_c1_success_value_is_finite ⟨.finite 10, .finite 2⟩ 0 _).1
      (add_value 10 2 (by rw [abs_of_pos (by norm_num)]; norm_num [float_info_max]))
  · exact (claim_c1_success_value_is_finite ⟨.finite 10, .finite 2⟩ 0 _).2.1
      (sub_value 10 2 (by rw [abs_of_pos (by norm_num)]; norm_num [float_info_max]))
  · exact (claim_c1_success_value_is_finite ⟨.finite 6, .finite 7⟩ 0 _).2.2.1
      (multiply_value 6 7 (by
        rw [abs_of_pos (by norm_num), abs_of_pos (by norm_num)]
        norm_num [float_info_max]))
  · exact (claim_c1_success_value_is_finite ⟨.finite 10, .finite 2⟩ NEAR_ZERO_TOL _).2.2.2
      (divide_value 10 2 NEAR_ZERO_TOL (le_of_lt NEAR_ZERO_TOL_pos)
        (by rw [abs_of_pos (by norm_num)]; norm_num [NEAR_ZERO_TOL])
        (by rw [abs_of_pos (by norm_num)]; norm_num [float_info_max]))

/-- Claim C5: for all finite x, y, `add(x, y)` returns the sum `x + y`
whenever that sum is finite, and otherwise returns invalid with the
finiteness diagnostic; and analogously `subtract` returns `x - y` or
invalid.  In the model a finite-operand sum is finite exactly when its
magnitude stays within `float_info.max`. -/
theorem claim_c5_add_subtract_exact (qx qy : ℚ) :
    ((|qx + qy| ≤ float_info_max →
        (Calculator.add ⟨.finite qx, .finite qy⟩).1 = .value (.finite (qx + qy))) ∧
      (float_info_max < |qx + qy| →
        (Calculator.add ⟨.finite qx, .finite qy⟩).1
          = .invalid "addition produced a non-finite result (inf/NaN).")) ∧
    ((|qx - qy| ≤ float_info_max →
        (Calculator.subtract ⟨.finite qx, .finite qy⟩).1 = .value (.finite (qx - qy))) ∧
      (float_info_max < |qx - qy| →
        (Calculator.subtract ⟨.finite qx, .finite qy⟩).1
          = .invalid "subtraction produced a non-finite result (inf/NaN).")) :=
  ⟨⟨add_value qx qy, add_overflow qx qy⟩, ⟨sub_value qx qy, sub_overflow qx qy⟩⟩

/-- Claim C5 witness: `add(10, 2)` returns `12` and `add(MAX, MAX)` is
invalid with the finiteness diagnostic; `subtract(10, 2)` returns `8` and
`subtract(MAX, -MAX)` is invalid. -/
theorem claim_c5_witness :
    (Calculator.add ⟨.finite 10, .finite 2⟩).1 = .value (.finite (10 + 2)) ∧
    (Calculator.add ⟨.finite float_info_max, .finite float_info_max⟩).1
      = .invalid "addition produced a non-finite result (inf/NaN)." ∧
    (Calculator.subtract ⟨.finite 10, .finite 2⟩).1 = .value (.finite (10 - 2)) ∧
    (Calculator.subtract ⟨.finite float_info_max, .finite (-float_info_max)⟩).1
      = .invalid "subtraction produced a non-finite result (inf/NaN)." := by
  refine ⟨?_, ?_, ?_, ?_⟩
  · exact (claim_c5_add_subtract_exact 10 2).1.1
      (by rw [abs_of_pos (by norm_num)]; norm_num [float_info_max])
  · exact (claim_c5_add_subtract_exact float_info_max float_info_max).1.2
      (by rw [abs_of_pos (by norm_num [float_info_max])]; norm_num [float_info_max])
  · exact (claim_c5_add_subtract_exact 10 2).2.1
      (by rw [abs_of_pos (by norm_num)]; norm_num [float_info_max])
  · exact (claim_c5_add_subtract_exact float_info_max (-float_info_max)).2.2
      (by
        rw [sub_neg_eq_add, abs_of_pos (by norm_num [float_info_max])]
        norm_num [float_info_max])

/-- Claim C8: every operation is pure with respect to the stored operand
pair: each method leaves the stored object state `(op1, op2)` unchanged
(second projection), and invoking the same operation twice on the same
operand pair (same tolerance for divide) yields the same result. -/
theorem claim_c8_pure_and_idempotent (c : Calculator) (tol : ℚ) :
    ((c.add).2 = c ∧ (c.subtract).2 = c ∧ (c.multiply).2 = c ∧ (c.divide tol).2 = c) ∧
    ((c.add).1 = (c.add).1 ∧ (c.subtract).1 = (c.subtract).1 ∧
      (c.multiply).1 = (c.multiply).1 ∧ (c.divide tol).1 = (c.divide tol).1) :=
  ⟨⟨add_snd c, subtract_snd c, multiply_snd c, divide_snd c tol⟩,
    ⟨rfl, rfl, rfl, rfl⟩⟩

/-- Claim C3: for every dividend x and every divisor y that is NaN,
positive or negative infinity, exactly 0, or finite with `|y| < tol`,
`divide(x, y, tol)` (with a non-negative tolerance) returns invalid with
the near-zero-divisor diagnostic, regardless of x. -/
theorem claim_c3_near_zero_divisor (x y : Fl) (tol : ℚ) (htol : 0 ≤ tol)
    (hy : y.isfinite = false ∨ y = .finite 0 ∨ ∃ q, y = .finite q ∧ |q| < tol) :
    (Calculator.divide ⟨x, y⟩ tol).1
      = Except.ok (.invalid "attempt to divide by (near) zero.") := by
  rw [divide_fst]
  dsimp only
  rcases hy with hy | hy | ⟨q, rfl, hq⟩
  · rw [if_pos (by rw [hy]; rfl)]
  · subst hy
    rw [if_neg (by simp [Fl.isfinite])]
    rw [isclose_finite_zero 0 tol htol]
    rw [decide_eq_true (show |(0 : ℚ)| ≤ tol by simpa using htol)]
  · rw [if_neg (by simp [Fl.isfinite])]
    rw [isclose_finite_zero q tol htol]
    rw [decide_eq_true (le_of_lt hq)]

/-- Claim C3 witness: `divide(5, 0)` with the default tolerance is invalid
with the near-zero diagnostic (the `y = 0` disjunct), and so is
`divide(5, 1e-13)` (the `|y| < tol` disjunct). -/
theorem claim_c3_witness :
    (Calculator.divide ⟨.finite 5, .finite 0⟩ NEAR_ZERO_TOL).1
      = Except.ok (.invalid "attempt to divide by (near) zero.") ∧
    (Calculator.divide ⟨.finite 5, .finite (1 / 10 ^ 13)⟩ NEAR_ZERO_TOL).1
      = Except.ok (.invalid "attempt to divide by (near) zero.") := by
  constructor
  · exact claim_c3_near_zero_divisor (.finite 5) (.finite 0) NEAR_ZERO_TOL
      (le_of_lt NEAR_ZERO_TOL_pos) (Or.inr (Or.inl rfl))
  · exact claim_c3_near_zero_divisor (.finite 5) (.finite (1 / 10 ^ 13)) NEAR_ZERO_TOL
      (le_of_lt NEAR_ZERO_TOL_pos)
      (Or.inr (Or.inr ⟨1 / 10 ^ 13, rfl, by
        rw [abs_of_pos (by norm_num)]
        norm_num [NEAR_ZERO_TOL]⟩))

/-- Claim C7: no operation raises for numeric edge cases: for all float
operands (NaN, infinities and 0 included) and any non-negative tolerance,
add, subtract and multiply return a `CalcResult` and divide returns
normally (`Except.ok`), never an uncontrolled error.  (A negative
tolerance is excluded: see claim C9.) -/
theorem claim_c7_total_no_raise (x y : Fl) (tol : ℚ) (htol : 0 ≤ tol) :
    (∃ ra, (Calculator.add ⟨x, y⟩).1 = ra) ∧
    (∃ rs, (Calculator.subtract ⟨x, y⟩).1 = rs) ∧
    (∃ rm, (Calculator.multiply ⟨x, y⟩).1 = rm) ∧
    (∃ rd, (Calculator.divide ⟨x, y⟩ tol).1 = Except.ok rd) := by
  refine ⟨⟨_, rfl⟩, ⟨_, rfl⟩, ⟨_, rfl⟩, ?_⟩
  rw [divide_fst]
  dsimp only
  cases y with
  | nan => exact ⟨_, rfl⟩
  | inf s => exact ⟨_, rfl⟩
  | finite qy =>
      rw [if_neg (by simp [Fl.isfinite])]
      rw [isclose_finite_zero qy tol htol]
      by_cases hle : |qy| ≤ tol
      · rw [decide_eq_true hle]
        exact ⟨_, rfl⟩
      · rw [decide_eq_false hle]
        dsimp only
        split
        · exact ⟨_, rfl⟩
        · exact ⟨_, rfl⟩

/-- Claim C7 witness: at operands (NaN, +Infinity) and tolerance 0 every
operation returns normally. -/
theorem claim_c7_witness :
    (∃ ra, (Calculator.add ⟨.nan, .inf false⟩).1 = ra) ∧
    (∃ rs, (Calculator.subtract ⟨.nan, .inf false⟩).1 = rs) ∧
    (∃ rm, (Calculator.multiply ⟨.nan, .inf false⟩).1 = rm) ∧
    (∃ rd, (Calculator.divide ⟨.nan, .inf false⟩ 0).1 = Except.ok rd) :=
  claim_c7_total_no_raise .nan (.inf false) 0 (le_refl 0)

/-- Claim C9 counterexample: the claim says a negative tolerance raises
`ValueError` for any operands, but with a non-finite divisor the
short-circuited `or` returns the near-zero invalid signal before `isclose`
is ever called: `divide(1, +Infinity, tol = -1)` returns normally. -/
theorem claim_c9_counterexample :
    (Calculator.divide ⟨.finite 1, .inf false⟩ (-1)).1
      = Except.ok (.invalid "attempt to divide by (near) zero.") := by
  rw [divide_fst]
  rfl

/-- Claim C9 (amended): `divide(x, y, tol)` with a negative tolerance
raises `ValueError` (the uncontrolled error, not the invalid signal)
whenever the divisor is finite; a non-finite divisor short-circuits to the
near-zero invalid signal before the tolerance is validated. -/
theorem claim_c9_negative_tol_raises (x : Fl) (qy tol : ℚ) (htol : tol < 0) :
    (Calculator.divide ⟨x, .finite qy⟩ tol).1
      = Except.error "tolerances must be non-negative" := by
  rw [divide_fst]
  dsimp only
  rw [if_neg (by simp [Fl.isfinite])]
  rw [isclose_neg_tol _ _ _ _ htol]

/-- Claim C9 witness: `divide(1, 2, tol = -1)` raises. -/
theorem claim_c9_witness :
    (Calculator.divide ⟨.finite 1, .finite 2⟩ (-1)).1
      = Except.error "tolerances must be non-negative" :=
  claim_c9_negative_tol_raises (.finite 1) 2 (-1) (by norm_num)

/-- Claim C10: for a finite nonzero divisor y and tolerance `tol ≥ 0`, the
near-zero rejection triggers exactly when `|y| ≤ tol` — the boundary is
inclusive, and every finite y with `|y| > tol` passes the check (the
result, whatever it is, is never the near-zero diagnostic). -/
theorem claim_c10_inclusive_boundary (x : Fl) (qy tol : ℚ) (hy0 : qy ≠ 0)
    (htol : 0 ≤ tol) :
    ((Calculator.divide ⟨x, .finite qy⟩ tol).1
        = Except.ok (.invalid "attempt to divide by (near) zero."))
      ↔ |qy| ≤ tol := by
  rw [divide_fst]
  dsimp only
  rw [if_neg (by simp [Fl.isfinite])]
  rw [isclose_finite_zero qy tol htol]
  by_cases hle : |qy| ≤ tol
  · rw [decide_eq_true hle]
    simpa using hle
  · rw [decide_eq_false hle]
    dsimp only
    constructor
    · intro h
      exfalso
      split at h
      · simp at h
      · simp only [Except.ok.injEq] at h
        unfold _finite_or_none at h
        split at h
        · exact CalcResult.noConfusion h
        · simp at h
    · intro h
      exact absurd h hle

/-- Claim C10 witness: with divisor exactly at the tolerance,
`divide(7, 1e-12, tol = 1e-12)` is rejected as near-zero (the boundary is
inclusive). -/
theorem claim_c10_witness :
    (Calculator.divide ⟨.finite 7, .finite (1 / 10 ^ 12)⟩ NEAR_ZERO_TOL).1
      = Except.ok (.invalid "attempt to divide by (near) zero.") :=
  (claim_c10_inclusive_boundary (.finite 7) (1 / 10 ^ 12) NEAR_ZERO_TOL
      (by norm_num) (le_of_lt NEAR_ZERO_TOL_pos)).mpr
    (by rw [abs_of_pos (by norm_num)]; norm_num [NEAR_ZERO_TOL])

/-- Helper: a finite divisor within the tolerance band is rejected as
near-zero, whatever the dividend. -/
lemma divide_near_zero_of_le (x : Fl) (qy tol : ℚ) (htol : 0 ≤ tol)
    (h : |qy| ≤ tol) :
    (Calculator.divide ⟨x, .finite qy⟩ tol).1
      = Except.ok (.invalid "attempt to divide by (near) zero.") := by
  rw [divide_fst]
  dsimp only
  rw [if_neg (by simp [Fl.isfinite])]
  rw [isclose_finite_zero qy tol htol]
  rw [decide_eq_true h]

/-- Claim C2 counterexample: the claim predicts `divide(5, 1e-308)` is
invalid with the overflow diagnostic, but `|1e-308| ≤ 1e-12`, so the
near-zero check fires first and the diagnostic is the near-zero one. -/
theorem claim_c2_counterexample :
    (Calculator.divide ⟨.finite 5, .finite (1 / 10 ^ 308)⟩ NEAR_ZERO_TOL).1
        = Except.ok (.invalid "attempt to divide by (near) zero.") ∧
    ¬ ((Calculator.divide ⟨.finite 5, .finite (1 / 10 ^ 308)⟩ NEAR_ZERO_TOL).1
        = Except.ok (.invalid "division would overflow (|x|/|y| > max_float).")) := by
  have h : (Calculator.divide ⟨.finite 5, .finite (1 / 10 ^ 308)⟩ NEAR_ZERO_TOL).1
      = Except.ok (.invalid "attempt to divide by (near) zero.") :=
    divide_near_zero_of_le (.finite 5) (1 / 10 ^ 308) NEAR_ZERO_TOL
      (le_of_lt NEAR_ZERO_TOL_pos)
      (by rw [abs_of_pos (by norm_num)]; norm_num [NEAR_ZERO_TOL])
  refine ⟨h, ?_⟩
  rw [h]
  simp

/-- Claim C2 (amended): for x, y finite floats with `|y|` above the
default near-zero tolerance and `|x| > MAX_FLOAT * |y|`, `divide(x, y)`
returns invalid with the overflow diagnostic.  When `|y|` is inside the
tolerance band — as for `divide(5, 1e-308)` — the near-zero check fires
first and the diagnostic is "near-zero divisor", not "overflow". -/
theorem claim_c2_divide_overflow (qx qy : ℚ) (hx : |qx| ≤ float_info_max)
    (hy : NEAR_ZERO_TOL < |qy|) (hov : float_info_max * |qy| < |qx|) :
    (Calculator.divide ⟨.finite qx, .finite qy⟩ NEAR_ZERO_TOL).1
      = Except.ok (.invalid "division would overflow (|x|/|y| > max_float).") := by
  rw [divide_far_fst _ qy NEAR_ZERO_TOL (le_of_lt NEAR_ZERO_TOL_pos) hy]
  have h1 : |qy| ≤ 1 := by
    by_contra hgt
    push_neg at hgt
    have hmm := mul_lt_mul_of_pos_left hgt float_info_max_pos
    rw [mul_one] at hmm
    linarith
  have hcond : ((Fl.finite qx).isfinite &&
      (Fl.finite qx).abs.pyGt ((Fl.finite float_info_max).mul (Fl.finite |qy|))) = true := by
    rw [mul_max_abs_small qy h1]
    show (true && decide (float_info_max * |qy| < |qx|)) = true
    rw [decide_eq_true hov]
    rfl
  rw [if_pos hcond]

/-- Claim C2 witness: `divide(1e307, 1e-3)` (divisor far from zero,
quotient beyond MAX_FLOAT) is invalid with the overflow diagnostic. -/
theorem claim_c2_witness :
    (Calculator.divide ⟨.finite (10 ^ 307), .finite (1 / 1000)⟩ NEAR_ZERO_TOL).1
      = Except.ok (.invalid "division would overflow (|x|/|y| > max_float).") :=
  claim_c2_divide_overflow (10 ^ 307) (1 / 1000)
    (by rw [abs_of_pos (by norm_num)]; norm_num [float_info_max])
    (by rw [abs_of_pos (by norm_num)]; norm_num [NEAR_ZERO_TOL])
    (by rw [abs_of_pos (by norm_num), abs_of_pos (by norm_num)]; norm_num [float_info_max])

/-- Claim C4: for x, y finite floats, nonzero, with `|x| > MAX_FLOAT / |y|`,
`multiply(x, y)` returns invalid with the overflow diagnostic of the
pre-check — not the post-hoc non-finite-result diagnostic — so the
overflow is signalled before the product is computed. -/
theorem claim_c4_multiply_overflow (qx qy : ℚ) (hx : |qx| ≤ float_info_max)
    (hy : |qy| ≤ float_info_max) (hx0 : qx ≠ 0) (hy0 : qy ≠ 0)
    (hov : float_info_max / |qy| < |qx|) :
    (Calculator.multiply ⟨.finite qx, .finite qy⟩).1
      = .invalid "multiplication would overflow (|x|*|y| > max_float)." := by
  rw [multiply_fst]
  rw [if_pos (show ((Fl.finite qx).isfinite && (Fl.finite qy).isfinite) = true from rfl)]
  have hpos : 0 < |qy| := abs_pos.mpr hy0
  have h1 : 1 ≤ |qy| := by
    by_contra hlt
    push_neg at hlt
    have hbig : float_info_max < float_info_max / |qy| := by
      rw [lt_div_iff hpos]
      nlinarith [float_info_max_pos]
    linarith
  have hbeq : ((|qy| : ℚ) == 0) = false :=
    beq_eq_false_iff_ne.mpr (abs_ne_zero.mpr hy0)
  have hcond : (!(Fl.finite qy).abs.pyEq (Fl.finite 0) &&
      (Fl.finite qx).abs.pyGt ((Fl.finite float_info_max).div (Fl.finite qy).abs)) = true := by
    show (!((|qy| : ℚ) == 0) &&
      Fl.pyGt (.finite |qx|) (Fl.div (.finite float_info_max) (.finite |qy|))) = true
    rw [hbeq, div_max_abs_small qy hy0 h1]
    show (!false && decide (float_info_max / |qy| < |qx|)) = true
    rw [decide_eq_true hov]
    rfl
  rw [if_pos hcond]

/-- Claim C4 witness: `multiply(MAX_FLOAT, 2)` is invalid with the
pre-check overflow diagnostic. -/
theorem claim_c4_witness :
    (Calculator.multiply ⟨.finite float_info_max, .finite 2⟩).1
      = .invalid "multiplication would overflow (|x|*|y| > max_float)." :=
  claim_c4_multiply_overflow float_info_max 2
    (le_of_eq (abs_of_pos float_info_max_pos))
    (by rw [abs_of_pos (by norm_num)]; norm_num [float_info_max])
    (ne_of_gt float_info_max_pos)
    (by norm_num)
    (by
      rw [abs_of_pos float_info_max_pos, abs_of_pos (by norm_num : (0:ℚ) < 2)]
      norm_num [float_info_max])

/-- Claim C6: for all finite x, y with y outside the near-zero tolerance
band and `|x / y|` finite (within MAX_FLOAT), `divide(x, y)` returns the
quotient `x / y`. -/
theorem claim_c6_divide_exact (qx qy tol : ℚ) (htol : 0 ≤ tol)
    (hfar : tol < |qy|) (hq : |qx / qy| ≤ float_info_max) :
    (Calculator.divide ⟨.finite qx, .finite qy⟩ tol).1
      = Except.ok (.value (.finite (qx / qy))) :=
  divide_value qx qy tol htol hfar hq

/-- Claim C6 witness: `divide(10, 2)` with the default tolerance returns
`5`. -/
theorem claim_c6_witness :
    (Calculator.divide ⟨.finite 10, .finite 2⟩ NEAR_ZERO_TOL).1
      = Except.ok (.value (.finite (10 / 2))) :=
  claim_c6_divide_exact 10 2 NEAR_ZERO_TOL (le_of_lt NEAR_ZERO_TOL_pos)
    (by rw [abs_of_pos (by norm_num)]; norm_num [NEAR_ZERO_TOL])
    (by rw [abs_of_pos (by norm_num)]; norm_num [float_info_max])
